import Mathlib

/-!
Verification of the syres repository: a shallow embedding of its booking-data
resolution (src/app.rs), CSRF-token extraction (src/http_client.rs and
src/skedda_client.rs), authenticated request construction, and the
terminal view state machine (src/app.rs), together with theorems settling
the specification's claims about them.
-/

namespace Syres

/-! ## JSON values (serde_json::Value, numbers restricted to i64 range used by as_i64) -/

inductive Json where
  | null : Json
  | bool (b : Bool) : Json
  | num (n : Int) : Json
  | str (s : String) : Json
  | arr (xs : List Json) : Json
  | obj (fields : List (String × Json)) : Json

/-- `value["key"]`: serde_json's Index by string key; yields Null on a
non-object or a missing key. -/
def Json.getKey : Json → String → Json
  | Json.obj fields, k => ((fields.lookup k).getD Json.null)
  | _, _ => Json.null

/-- `value[i]`: serde_json's Index by usize; yields Null on a non-array or
an out-of-bounds index. -/
def Json.getIdx : Json → Nat → Json
  | Json.arr xs, i => ((xs.get? i).getD Json.null)
  | _, _ => Json.null

/-- `Value::as_str`. -/
def Json.asStr : Json → Option String
  | Json.str s => some s
  | _ => none

/-- `Value::as_i64` (model numbers as the i64-representable integers). -/
def Json.asI64 : Json → Option Int
  | Json.num n => some n
  | _ => none

/-! ## Booking data resolution (src/app.rs, App::test_http_client, lines 220-234)

The Rust loop iterates the `spaceTags` array; for every object item whose
`name` string equals `self.selected_location` and that carries a `spaceIds`
array, it reassigns `self.selected_location_space_ids` to the spaceIds
converted with `as_i64`/`to_string`. Items that do not match leave the field
untouched, so the loop's result threads an accumulator (the field's prior
value). -/

/-- `space_ids.iter().filter_map(|v| v.as_i64()).map(|n| n.to_string()).collect()`. -/
def convertSpaceIds (ids : List Json) : List String :=
  (ids.filterMap Json.asI64).map (fun n => toString n)

/-- One iteration of the Rust for-loop, as the value the field would take:
`some` of the converted spaceIds when the item is an object whose `name`
equals the selection and that has a `spaceIds` array, `none` otherwise. -/
def tagValue (sel : Option String) : Json → Option (List String)
  | Json.obj fields =>
    if sel == (fields.lookup "name").bind Json.asStr then
      match fields.lookup "spaceIds" with
      | some (Json.arr ids) => some (convertSpaceIds ids)
      | _ => none
    else none
  | _ => none

/-- The for-loop over `items`, threading `selected_location_space_ids`. -/
def updateSpaceIds (sel : Option String) : List Json → List String → List String
  | [], acc => acc
  | item :: rest, acc =>
    updateSpaceIds sel rest
      (match item with
       | Json.obj fields =>
         if sel == (fields.lookup "name").bind Json.asStr then
           match fields.lookup "spaceIds" with
           | some (Json.arr ids) => convertSpaceIds ids
           | _ => acc
         else acc
       | _ => acc)

/-- `&webs_data["venue"][0]["spacePresentation"]["spaceTags"]` (the Rust
local `webs_response`). -/
def webs_response (webs_data : Json) : Json :=
  (((webs_data.getKey "venue").getIdx 0).getKey "spacePresentation").getKey "spaceTags"

/-- The resolution performed by `App::test_http_client` after the fetch:
given the fetched document, the current `selected_location` and the prior
value of `selected_location_space_ids`, it returns the field's new value.
The non-array branch only prints and returns (no error), leaving the field
unchanged; the whole path returns `Ok(())`, so the embedded function is
total (no error case). -/
def test_http_client_resolve (webs_data : Json) (sel : Option String)
    (prev : List String) : List String :=
  match webs_response webs_data with
  | Json.arr items => updateSpaceIds sel items prev
  | _ => prev

/-! ### Fixture builders (the spec's test catalogs) -/

/-- A spaceTags entry `{"name": name, "spaceIds": ids}`. -/
def mkTag (name : String) (ids : List Int) : Json :=
  Json.obj [("name", Json.str name), ("spaceIds", Json.arr (ids.map Json.num))]

/-- A catalog `{"venue":[{"spacePresentation":{"spaceTags": tags}}]}`. -/
def mkCatalog (tags : List Json) : Json :=
  Json.obj [("venue", Json.arr
    [Json.obj [("spacePresentation", Json.obj [("spaceTags", Json.arr tags)])]])]

theorem webs_response_mkCatalog (tags : List Json) :
    webs_response (mkCatalog tags) = Json.arr tags := rfl

theorem filterMap_asI64_map_num (ids : List Int) :
    (ids.map Json.num).filterMap Json.asI64 = ids := by
  induction ids with
  | nil => rfl
  | cons a l ih => simpa [Json.asI64] using ih

theorem filterMap_asI64_comp_num (ids : List Int) :
    ids.filterMap (Json.asI64 ∘ Json.num) = ids := by
  simpa [List.filterMap_map] using filterMap_asI64_map_num ids

/-- "Last match wins" description of the loop, written from the amended
spec sentence: the converted spaceIds of the last matching entry (that
carries a spaceIds array), if any. -/
def lastMatchSpaceIds (sel : Option String) : List Json → Option (List String)
  | [] => none
  | item :: rest =>
    match lastMatchSpaceIds sel rest with
    | some v => some v
    | none => tagValue sel item

theorem updateSpaceIds_step (sel : Option String) (item : Json) (rest : List Json)
    (acc : List String) :
    updateSpaceIds sel (item :: rest) acc
      = updateSpaceIds sel rest ((tagValue sel item).getD acc) := by
  cases item with
  | obj fields =>
    by_cases h : (sel == (fields.lookup "name").bind Json.asStr) = true
    · cases hf : fields.lookup "spaceIds" with
      | none => simp [updateSpaceIds, tagValue, h, hf]
      | some v => cases v <;> simp [updateSpaceIds, tagValue, h, hf]
    · simp [updateSpaceIds, tagValue, h]
  | null => rfl
  | bool b => rfl
  | num n => rfl
  | str s => rfl
  | arr xs => rfl

theorem updateSpaceIds_eq_lastMatch (sel : Option String) :
    ∀ (items : List Json) (prev : List String),
      updateSpaceIds sel items prev = (lastMatchSpaceIds sel items).getD prev := by
  intro items
  induction items with
  | nil => intro prev; rfl
  | cons item rest ih =>
    intro prev
    rw [updateSpaceIds_step, ih]
    cases hrest : lastMatchSpaceIds sel rest with
    | some v => simp [lastMatchSpaceIds, hrest]
    | none =>
      cases hi : tagValue sel item <;> simp [lastMatchSpaceIds, hrest, hi]

/-! ## CSRF token extraction (src/http_client.rs lines 46-87 and
src/skedda_client.rs lines 50-67)

scraper's parsed document is modelled as the list of its elements in
document order (tag name plus attributes); the raw HTML text is carried
alongside, as the substring fallback works on the unparsed body. -/

structure HtmlElement where
  tag : String
  attrs : List (String × String)

/-- `element.value().attr(name)`. -/
def HtmlElement.attr (e : HtmlElement) (name : String) : Option String :=
  e.attrs.lookup name

structure HtmlDoc where
  elements : List HtmlElement
  raw : List Char

/-- A CSS selector of the shape `tag[attr='value']` — the only shape the
code uses — applied to one element. -/
def selectorMatches : String × String × String → HtmlElement → Bool
  | (tag, an, av), e => e.tag == tag && e.attr an == some av

/-- The first selector loop: for each selector in order, take
`document.select(&selector).next()` and return its `value` attribute if
present; a selector whose first matching element lacks a `value`
attribute falls through to the next selector. -/
def selectorScanList (elements : List HtmlElement) :
    List (String × String × String) → Option String
  | [] => none
  | sel :: rest =>
    match elements.find? (selectorMatches sel) with
    | some e =>
      match e.attr "value" with
      | some v => some v
      | none => selectorScanList elements rest
    | none => selectorScanList elements rest

/-- Does `pat` occur at the head of `hay`? -/
def leadsWith : List Char → List Char → Bool
  | [], _ => true
  | _ :: _, [] => false
  | p :: ps, h :: hs => p == h && leadsWith ps hs

/-- `str::find`: index of the first occurrence of `pat` in the haystack. -/
def subFind (pat : List Char) : List Char → Option Nat
  | [] => if leadsWith pat [] then some 0 else none
  | c :: rest =>
    if leadsWith pat (c :: rest) then some 0
    else (subFind pat rest).map (fun i => i + 1)

/-- The fallback body for one pattern (http_client.rs lines 74-84): find
the pattern, then the next `"` at or after it, and return the text up to
the following `"`; any miss falls through to the next pattern. -/
def patternExtract (raw : List Char) (pat : List Char) : Option String :=
  match subFind pat raw with
  | none => none
  | some start =>
    let after_pattern := raw.drop start
    match subFind ['"'] after_pattern with
    | none => none
    | some token_start =>
      let token_content := after_pattern.drop (token_start + 1)
      match subFind ['"'] token_content with
      | none => none
      | some token_end => some (String.mk (token_content.take token_end))

/-- `token_patterns` of http_client.rs. -/
def token_patterns : List String :=
  ["X-Skedda-RequestVerificationToken", "__RequestVerificationToken"]

/-- The second loop of http_client.rs's extractor: the substring fallback
over the pattern list. -/
def patternScanList (raw : List Char) : List String → Option String
  | [] => none
  | pat :: rest =>
    match patternExtract raw pat.toList with
    | some tk => some tk
    | none => patternScanList raw rest

/-- `base_url` of both client structs. -/
def base_url : String := "https://switchyards.skedda.com"

/-- An outgoing HTTP request together with the relevant client
configuration: whether the reqwest client was built with
`cookie_store(true)` (and hence replays the session cookies of the
booking-page exchange on follow-up requests). -/
structure Request where
  method : String
  url : String
  headers : List (String × String)
  cookieStoreEnabled : Bool

namespace HttpClient

/-- `selectors` of src/http_client.rs `extract_csrf_token`. -/
def selectors : List (String × String × String) :=
  [("input", "name", "__RequestVerificationToken"),
   ("input", "name", "X-Skedda-RequestVerificationToken"),
   ("meta", "name", "csrf-token"),
   ("meta", "name", "X-Skedda-RequestVerificationToken")]

/-- `SkeddaClient::extract_csrf_token` of src/http_client.rs: selector
scan first, then the substring fallback; `none` models
`Err(anyhow!("CSRF token not found in HTML content"))`. -/
def extract_csrf_token (doc : HtmlDoc) : Option String :=
  match selectorScanList doc.elements selectors with
  | some tk => some tk
  | none => patternScanList doc.raw token_patterns

/-- The GET /webs request built by `SkeddaClient::get_webs_data` of
src/http_client.rs (lines 155-192): token header, Accept and Referer; the
client was built with only a user agent — no `cookie_store(true)` — so no
cookies are stored or replayed, and no Cookie header is inserted. -/
def get_webs_data_request (csrf_token : String) : Request :=
  { method := "GET"
    url := base_url ++ "/webs"
    headers := [("X-Skedda-RequestVerificationToken", csrf_token),
                ("Accept", "application/json"),
                ("Referer", base_url ++ "/booking")]
    cookieStoreEnabled := false }

end HttpClient

namespace SkeddaClient

/-- `selectors` of src/skedda_client.rs `extract_csrf_token`. -/
def selectors : List (String × String × String) :=
  [("input", "name", "__RequestVerificationToken")]

/-- `SkeddaClient::extract_csrf_token` of src/skedda_client.rs: a single
selector and no substring fallback. -/
def extract_csrf_token (doc : HtmlDoc) : Option String :=
  selectorScanList doc.elements selectors

/-- The GET /webs request built by `SkeddaClient::get_booking_data` of
src/skedda_client.rs (lines 70-104): token header and Accept only; the
client was built with `cookie_store(true)`, so the session cookies from
the booking-page exchange are replayed automatically; no Referer header
is inserted. -/
def get_booking_data_webs_request (csrf_token : String) : Request :=
  { method := "GET"
    url := base_url ++ "/webs"
    headers := [("X-Skedda-RequestVerificationToken", csrf_token),
                ("Accept", "application/json")]
    cookieStoreEnabled := true }

end SkeddaClient

/-- The property the spec claims of every authenticated /webs request
(written from the spec's words, for comparison with the embedded request
builders): verification token header, Accept: application/json, Referer at
the booking page, and the paired session cookie — via the client cookie
store or an explicit Cookie header. -/
def carriesWebsAuth (r : Request) (csrf_token : String) : Prop :=
  r.headers.lookup "X-Skedda-RequestVerificationToken" = some csrf_token
  ∧ r.headers.lookup "Accept" = some "application/json"
  ∧ r.headers.lookup "Referer" = some (base_url ++ "/booking")
  ∧ (r.cookieStoreEnabled = true ∨ (r.headers.lookup "Cookie").isSome = true)

/-- Does any spaceTags entry match the selection by name (the loop's
comparison `self.selected_location == obj.get("name")...`)? -/
def tagNameMatches (sel : Option String) : Json → Bool
  | Json.obj fields => sel == (fields.lookup "name").bind Json.asStr
  | _ => false

/-- Some entry of the catalog's spaceTags array matches the selection. -/
def anyNameMatch (webs_data : Json) (sel : Option String) : Bool :=
  match webs_response webs_data with
  | Json.arr items => items.any (tagNameMatches sel)
  | _ => false

theorem tagValue_of_name_mismatch (sel : Option String) (item : Json)
    (h : tagNameMatches sel item = false) : tagValue sel item = none := by
  cases item with
  | obj fields =>
    simp only [tagNameMatches] at h
    simp [tagValue, h]
  | null => rfl
  | bool b => rfl
  | num n => rfl
  | str s => rfl
  | arr xs => rfl

theorem updateSpaceIds_no_match (sel : Option String) :
    ∀ (items : List Json) (prev : List String),
      (∀ item ∈ items, tagNameMatches sel item = false) →
      updateSpaceIds sel items prev = prev := by
  intro items
  induction items with
  | nil => intro prev _; rfl
  | cons item rest ih =>
    intro prev h
    rw [updateSpaceIds_step, tagValue_of_name_mismatch sel item (h item (by simp))]
    exact ih prev (fun x hx => h x (by simp [hx]))

/-- C1: for the spec's fixture catalog, resolving location name "A" yields
`["1","2","3"]`, and in general for a single tag named "A" with integer
spaceIds `ids`, the result is `ids` converted to decimal strings in source
order. -/
theorem C1_resolve_returns_decimal_strings_in_order :
    test_http_client_resolve (mkCatalog [mkTag "A" [1, 2, 3]]) (some "A") [] = ["1", "2", "3"]
    ∧ ∀ ids : List Int,
        test_http_client_resolve (mkCatalog [mkTag "A" ids]) (some "A") []
          = ids.map (fun n => toString n) := by
  constructor
  · decide
  · intro ids
    show updateSpaceIds (some "A") [mkTag "A" ids] [] = ids.map (fun n => toString n)
    rw [updateSpaceIds_step]
    simp [tagValue, mkTag, List.lookup, convertSpaceIds, Json.asStr,
      filterMap_asI64_map_num, filterMap_asI64_comp_num, updateSpaceIds]

/-- C3 counterexample: with two spaceTags entries both named "A" (spaceIds
[1] and [2]), resolution returns the SECOND entry's ids ["2"], not the
first entry's ["1"] — the loop has no early return, so the last match
wins. -/
theorem C3_counterexample_last_not_first :
    test_http_client_resolve (mkCatalog [mkTag "A" [1], mkTag "A" [2]]) (some "A") [] = ["2"]
    ∧ test_http_client_resolve (mkCatalog [mkTag "A" [1], mkTag "A" [2]]) (some "A") [] ≠ ["1"] := by
  decide

/-- C3 amended: resolution returns the spaceIds of the LAST spaceTags entry
whose name equals the requested name and that carries a spaceIds array
(`lastMatchSpaceIds`); when no such entry exists the prior field value is
kept. -/
theorem C3_amended_last_match_wins (sel : Option String) (tags : List Json)
    (prev : List String) :
    test_http_client_resolve (mkCatalog tags) sel prev
      = (lastMatchSpaceIds sel tags).getD prev := by
  show updateSpaceIds sel tags prev = (lastMatchSpaceIds sel tags).getD prev
  exact updateSpaceIds_eq_lastMatch sel tags prev

/-- C4: when no spaceTags entry matches the requested name, resolution
(started from the initial, empty field of `App::default`) yields the empty
sequence; the embedded function is total, mirroring the code path that
returns `Ok(())` without signalling an error. -/
theorem C4_no_match_yields_empty (catalog : Json) (name : String)
    (h : anyNameMatch catalog (some name) = false) :
    test_http_client_resolve catalog (some name) [] = [] := by
  unfold anyNameMatch at h
  unfold test_http_client_resolve
  cases hw : webs_response catalog with
  | arr items =>
    rw [hw] at h
    exact updateSpaceIds_no_match (some name) items []
      (by simpa [List.any_eq_false] using h)
  | null => rfl
  | bool b => rfl
  | num n => rfl
  | str s => rfl
  | obj fields => rfl

theorem C4_witness :
    anyNameMatch (mkCatalog [mkTag "A" [1, 2, 3]]) (some "B") = false
    ∧ test_http_client_resolve (mkCatalog [mkTag "A" [1, 2, 3]]) (some "B") [] = [] :=
  ⟨by decide, C4_no_match_yields_empty (mkCatalog [mkTag "A" [1, 2, 3]]) "B" (by decide)⟩

/-- C8 counterexample: resolution is NOT a pure function of catalog and
name alone — on a non-matching name it returns the prior value of the
mutated field `selected_location_space_ids`, so the same catalog and name
give different results for different prior states. -/
theorem C8_counterexample_reads_prior_state :
    test_http_client_resolve (mkCatalog [mkTag "A" [1]]) (some "B") ["7"] = ["7"]
    ∧ test_http_client_resolve (mkCatalog [mkTag "A" [1]]) (some "B") [] = []
    ∧ test_http_client_resolve (mkCatalog [mkTag "A" [1]]) (some "B") ["7"]
        ≠ test_http_client_resolve (mkCatalog [mkTag "A" [1]]) (some "B") [] := by
  decide

/-- C8 amended: resolution is deterministic and idempotent as a transformer
of the `selected_location_space_ids` field: running it twice from the same
prior state equals running it once; but it reads and writes that field
rather than being a pure function of catalog and name alone. -/
theorem C8_amended_idempotent_state_transformer (catalog : Json)
    (sel : Option String) (prev : List String) :
    test_http_client_resolve catalog sel (test_http_client_resolve catalog sel prev)
      = test_http_client_resolve catalog sel prev := by
  unfold test_http_client_resolve
  cases webs_response catalog with
  | arr items =>
    simp only [updateSpaceIds_eq_lastMatch]
    cases lastMatchSpaceIds sel items <;> rfl
  | null => rfl
  | bool b => rfl
  | num n => rfl
  | str s => rfl
  | obj fields => rfl

theorem selectorScanList_eq_none (elements : List HtmlElement) :
    ∀ sels : List (String × String × String),
      (∀ e ∈ elements, ∀ sel ∈ sels, selectorMatches sel e = false) →
      selectorScanList elements sels = none := by
  intro sels
  induction sels with
  | nil => intro _; rfl
  | cons sel rest ih =>
    intro h
    have hfind : elements.find? (selectorMatches sel) = none := by
      rw [List.find?_eq_none]
      intro e he
      simp [h e he sel (by simp)]
    simp only [selectorScanList, hfind]
    exact ih (fun e he s hs => h e he s (by simp [hs]))

theorem patternExtract_eq_none (raw pat : List Char) (h : subFind pat raw = none) :
    patternExtract raw pat = none := by
  simp [patternExtract, h]

theorem patternScanList_eq_none (raw : List Char) :
    ∀ pats : List String, (∀ pat ∈ pats, subFind pat.toList raw = none) →
      patternScanList raw pats = none := by
  intro pats
  induction pats with
  | nil => intro _; rfl
  | cons p rest ih =>
    intro h
    simp only [patternScanList, patternExtract_eq_none raw p.toList (h p (by simp))]
    exact ih (fun q hq => h q (by simp [hq]))

/-- C2: for http_client.rs's extractor, (1) the markup selector scan takes
precedence — whenever it yields a token that token is the result; (2) the
result is a failure (models `TokenNotFoundError`) exactly when the
selector scan and the substring fallback both yield nothing; (3) on a body
containing none of the known markers — no element matching any selector
and no occurrence of either header-name pattern in the raw text — the
extraction fails rather than returning any (possibly empty) string. -/
theorem C2_extraction_order_and_exact_failure (doc : HtmlDoc) :
    (∀ tk, selectorScanList doc.elements HttpClient.selectors = some tk →
        HttpClient.extract_csrf_token doc = some tk)
    ∧ (HttpClient.extract_csrf_token doc = none ↔
        (selectorScanList doc.elements HttpClient.selectors = none
          ∧ patternScanList doc.raw token_patterns = none))
    ∧ ((∀ e ∈ doc.elements, ∀ sel ∈ HttpClient.selectors, selectorMatches sel e = false) →
       (∀ pat ∈ token_patterns, subFind pat.toList doc.raw = none) →
       HttpClient.extract_csrf_token doc = none) := by
  refine ⟨?_, ?_, ?_⟩
  · intro tk h
    simp [HttpClient.extract_csrf_token, h]
  · unfold HttpClient.extract_csrf_token
    cases selectorScanList doc.elements HttpClient.selectors <;> simp
  · intro hsel hpat
    unfold HttpClient.extract_csrf_token
    rw [selectorScanList_eq_none doc.elements HttpClient.selectors hsel]
    exact patternScanList_eq_none doc.raw token_patterns hpat

/-- A fixture document containing none of the known token markers. -/
def docNoMarkers : HtmlDoc :=
  { elements := [{ tag := "div", attrs := [("class", "x")] }]
    raw := "<div class=x>hello</div>".toList }

theorem C2_witness : HttpClient.extract_csrf_token docNoMarkers = none :=
  (C2_extraction_order_and_exact_failure docNoMarkers).2.2 (by decide) (by decide)

/-- C5 counterexample: the /webs request of the interactive client
(skedda_client.rs) carries no Referer header, and the /webs request of
http_client.rs's `get_webs_data` carries no session cookie — its client
has no cookie store and inserts no Cookie header; neither request
satisfies the claimed conjunction of all four elements. -/
theorem C5_counterexample_missing_referer_and_cookie :
    ¬ carriesWebsAuth (SkeddaClient.get_booking_data_webs_request "tok") "tok"
    ∧ ¬ carriesWebsAuth (HttpClient.get_webs_data_request "tok") "tok" := by
  unfold carriesWebsAuth SkeddaClient.get_booking_data_webs_request
    HttpClient.get_webs_data_request
  decide

/-- C5 amended: both /webs request builders attach the verification token
header and Accept: application/json; the skedda_client request relies on
the client's persistent cookie store for the paired session cookie but
sets no Referer, while http_client's `get_webs_data` sets the Referer to
the booking page but its client keeps no cookies and attaches none. -/
theorem C5_amended_webs_request_headers (csrf_token : String) :
    (SkeddaClient.get_booking_data_webs_request csrf_token).headers.lookup
        "X-Skedda-RequestVerificationToken" = some csrf_token
    ∧ (SkeddaClient.get_booking_data_webs_request csrf_token).headers.lookup "Accept"
        = some "application/json"
    ∧ (SkeddaClient.get_booking_data_webs_request csrf_token).cookieStoreEnabled = true
    ∧ (SkeddaClient.get_booking_data_webs_request csrf_token).headers.lookup "Referer"
        = none
    ∧ (HttpClient.get_webs_data_request csrf_token).headers.lookup
        "X-Skedda-RequestVerificationToken" = some csrf_token
    ∧ (HttpClient.get_webs_data_request csrf_token).headers.lookup "Accept"
        = some "application/json"
    ∧ (HttpClient.get_webs_data_request csrf_token).headers.lookup "Referer"
        = some (base_url ++ "/booking")
    ∧ (HttpClient.get_webs_data_request csrf_token).cookieStoreEnabled = false
    ∧ (HttpClient.get_webs_data_request csrf_token).headers.lookup "Cookie" = none :=
  ⟨rfl, rfl, rfl, rfl, rfl, rfl, rfl, rfl, rfl⟩

/-! ## The view state machine (src/app.rs) -/

/-- The `LOCATIONS` constant of src/app.rs. -/
def LOCATIONS : List String :=
  ["Adair Park", "Avondale Estates", "Buckhead", "Cabbagetown", "Chamblee",
   "Decatur", "Downtown", "Midtown", "Old Fourth Ward", "Roswell",
   "Virginia-Highland", "Westside"]

inductive ViewState where
  | LocationSelection : ViewState
  | BookingForm : ViewState
  | Confirmation : ViewState
deriving DecidableEq

/-- The `App` struct of src/app.rs. `locations` keeps the text contents of
the `ListItem`s; `list_selected` is `ListState::selected()`. The
`EventHandler` channel is not part of the value state: `AppEvent::Quit`,
the only app event the key handler ever sends, is modelled by its eventual
effect (`running := false`). -/
structure App where
  running : Bool
  counter : Nat
  locations : List String
  list_selected : Option Nat
  current_view : ViewState
  selected_location : Option String
  test_http : Bool
  selected_location_space_ids : List String

/-- `App::default` (src/app.rs lines 47-61). -/
def App.default : App :=
  { running := true
    counter := 0
    locations := LOCATIONS
    list_selected := some 0
    current_view := ViewState.LocationSelection
    selected_location := none
    test_http := false
    selected_location_space_ids := [] }

/-- The key events `App::handle_key_event` distinguishes: Esc, `q`,
Ctrl-C, `t`, Up, `k`, Down, `j`, Enter, and anything else. -/
inductive Key where
  | esc : Key
  | q : Key
  | ctrlC : Key
  | t : Key
  | up : Key
  | k : Key
  | down : Key
  | j : Key
  | enter : Key
  | other : Key

/-- The outcome of `test_http_client`'s network portion: `none` models a
failed fetch (`let _ = ...` drops the error and the field keeps its prior
value), `some` gives the fetched /webs document, to which the resolution
loop is applied against the prior field value. -/
def applyFetch (fetch : Option Json) (sel : Option String)
    (prev : List String) : List String :=
  match fetch with
  | none => prev
  | some webs_data => test_http_client_resolve webs_data sel prev

/-- `App::handle_key_event` (src/app.rs lines 103-167). `fetch` fixes the
outcome of the network call that Enter in LocationSelection triggers
synchronously — via `tokio::runtime::Runtime::block_on` — inside the
handler itself. -/
def App.handle_key_event (fetch : Option Json) (s : App) (key : Key) : App :=
  match key with
  | Key.esc | Key.q =>
    match s.current_view with
    | ViewState.LocationSelection => { s with running := false }
    | ViewState.BookingForm =>
      { s with current_view := ViewState.LocationSelection,
               selected_location := none,
               selected_location_space_ids := [] }
    | ViewState.Confirmation =>
      { s with current_view := ViewState.LocationSelection,
               selected_location := none,
               selected_location_space_ids := [] }
  | Key.ctrlC => { s with running := false }
  | Key.t => { s with test_http := true }
  | Key.up | Key.k =>
    let selected := s.list_selected.getD 0
    let new_selected :=
      if selected = 0 then s.locations.length - 1 else selected - 1
    { s with list_selected := some new_selected }
  | Key.down | Key.j =>
    let selected := s.list_selected.getD 0
    let new_selected :=
      if s.locations.length - 1 ≤ selected then 0 else selected + 1
    { s with list_selected := some new_selected }
  | Key.enter =>
    match s.current_view with
    | ViewState.LocationSelection =>
      match s.list_selected with
      | some i =>
        if i < s.locations.length then
          match LOCATIONS[i]? with
          | some loc =>
            { s with selected_location := some loc,
                     selected_location_space_ids :=
                       applyFetch fetch (some loc) s.selected_location_space_ids,
                     current_view := ViewState.BookingForm }
          | none => s
        else s
      | none => s
    | ViewState.BookingForm => { s with current_view := ViewState.Confirmation }
    | ViewState.Confirmation =>
      { s with current_view := ViewState.LocationSelection,
               selected_location := none }
  | Key.other => s

/-- The check at the top of `App::run`'s loop (src/app.rs lines 72-78):
when the `test_http` flag was set by the `t` key, clear it and run
`test_http_client`, whose resolution uses the current
`selected_location`. -/
def App.run_test_http_step (fetch : Option Json) (s : App) : App :=
  if s.test_http then
    { s with test_http := false,
             selected_location_space_ids :=
               applyFetch fetch s.selected_location s.selected_location_space_ids }
  else s

/-- States reachable from `App::default` by key events (under arbitrary
fetch outcomes) and the run loop's flag-triggered fetch step. -/
inductive App.Reachable : App → Prop where
  | base : App.Reachable App.default
  | key (fetch : Option Json) (key : Key) {s : App} :
      App.Reachable s → App.Reachable (App.handle_key_event fetch s key)
  | tick (fetch : Option Json) {s : App} :
      App.Reachable s → App.Reachable (App.run_test_http_step fetch s)

theorem App.handle_key_event_locations (fetch : Option Json) (s : App) (key : Key) :
    (App.handle_key_event fetch s key).locations = s.locations := by
  obtain ⟨r, c, locs, lsel, cv, sl, th, ids⟩ := s
  cases key with
  | esc => cases cv <;> rfl
  | q => cases cv <;> rfl
  | ctrlC => rfl
  | t => rfl
  | up => rfl
  | k => rfl
  | down => rfl
  | j => rfl
  | enter =>
    cases cv with
    | LocationSelection =>
      cases lsel with
      | none => rfl
      | some i =>
        by_cases hi : i < locs.length
        · cases hg : LOCATIONS[i]? <;>
            simp [App.handle_key_event, hi, hg]
        · simp [App.handle_key_event, hi]
    | BookingForm => rfl
    | Confirmation => rfl
  | other => rfl

theorem App.run_test_http_step_locations (fetch : Option Json) (s : App) :
    (App.run_test_http_step fetch s).locations = s.locations := by
  obtain ⟨r, c, locs, lsel, cv, sl, th, ids⟩ := s
  cases th <;> rfl

theorem App.Reachable.locations_eq {s : App} (h : App.Reachable s) :
    s.locations = LOCATIONS := by
  induction h with
  | base => rfl
  | key fetch kk hs ih => rw [App.handle_key_event_locations]; exact ih
  | tick fetch hs ih => rw [App.run_test_http_step_locations]; exact ih

theorem inv_selected_preserved_key (fetch : Option Json) (key : Key) (s : App)
    (h : s.current_view ≠ ViewState.LocationSelection →
      s.selected_location.isSome = true) :
    (App.handle_key_event fetch s key).current_view ≠ ViewState.LocationSelection →
      (App.handle_key_event fetch s key).selected_location.isSome = true := by
  obtain ⟨r, c, locs, lsel, cv, sl, th, ids⟩ := s
  cases key with
  | esc => cases cv <;> simp [App.handle_key_event]
  | q => cases cv <;> simp [App.handle_key_event]
  | ctrlC => exact h
  | t => exact h
  | up => exact h
  | k => exact h
  | down => exact h
  | j => exact h
  | enter =>
    cases cv with
    | LocationSelection =>
      cases lsel with
      | none => simp [App.handle_key_event]
      | some i =>
        by_cases hi : i < locs.length
        · cases hg : LOCATIONS[i]? with
          | none => simp [App.handle_key_event, hi, hg]
          | some loc => simp [App.handle_key_event, hi, hg]
        · simp [App.handle_key_event, hi]
    | BookingForm =>
      intro _
      exact h (fun hco => ViewState.noConfusion hco)
    | Confirmation => simp [App.handle_key_event]
  | other => exact h

theorem inv_selected_preserved_tick (fetch : Option Json) (s : App)
    (h : s.current_view ≠ ViewState.LocationSelection →
      s.selected_location.isSome = true) :
    (App.run_test_http_step fetch s).current_view ≠ ViewState.LocationSelection →
      (App.run_test_http_step fetch s).selected_location.isSome = true := by
  obtain ⟨r, c, locs, lsel, cv, sl, th, ids⟩ := s
  cases th with
  | true => exact h
  | false => exact h

/-- C9: in every state reachable from the initial state, whenever the
current view is BookingForm or Confirmation (i.e. not LocationSelection),
the selected location is present (`Some`). -/
theorem C9_selected_location_present_outside_selection (s : App)
    (hr : App.Reachable s)
    (hv : s.current_view ≠ ViewState.LocationSelection) :
    s.selected_location.isSome = true := by
  revert hv
  induction hr with
  | base => intro hv; exact absurd rfl hv
  | key fetch kk hs ih => exact inv_selected_preserved_key fetch kk _ ih
  | tick fetch hs ih => exact inv_selected_preserved_tick fetch _ ih

theorem C9_witness :
    (App.handle_key_event none App.default Key.enter).selected_location.isSome = true :=
  C9_selected_location_present_outside_selection _
    (App.Reachable.key none Key.enter App.Reachable.base) (by decide)

/-- C7: from LocationSelection, Enter (confirm) on a valid index `i` moves
to BookingForm carrying the i-th location's name; a subsequent Esc
(cancel) returns to LocationSelection with both the selected location and
the resolved space ids discarded. -/
theorem C7_confirm_then_cancel (fetch fetch2 : Option Json) (s : App) (i : Nat)
    (hr : App.Reachable s)
    (hv : s.current_view = ViewState.LocationSelection)
    (hsel : s.list_selected = some i)
    (hi : i < LOCATIONS.length) :
    (App.handle_key_event fetch s Key.enter).current_view = ViewState.BookingForm
    ∧ (App.handle_key_event fetch s Key.enter).selected_location = LOCATIONS[i]?
    ∧ (App.handle_key_event fetch2 (App.handle_key_event fetch s Key.enter)
        Key.esc).current_view = ViewState.LocationSelection
    ∧ (App.handle_key_event fetch2 (App.handle_key_event fetch s Key.enter)
        Key.esc).selected_location = none
    ∧ (App.handle_key_event fetch2 (App.handle_key_event fetch s Key.enter)
        Key.esc).selected_location_space_ids = [] := by
  have hlocs := hr.locations_eq
  obtain ⟨r, c, locs, lsel, cv, sl, th, ids⟩ := s
  simp only at hlocs hv hsel
  subst hlocs hv hsel
  cases hg : LOCATIONS[i]? with
  | none =>
    rw [List.getElem?_eq_none_iff] at hg
    omega
  | some loc =>
    have hloc : LOCATIONS[i] = loc := by
      rw [List.getElem?_eq_getElem hi] at hg
      exact Option.some.inj hg
    refine ⟨?_, ?_, ?_, ?_, ?_⟩ <;> simp [App.handle_key_event, hi, hg, hloc]

theorem C7_witness :
    (App.handle_key_event none App.default Key.enter).current_view
        = ViewState.BookingForm
    ∧ (App.handle_key_event none App.default Key.enter).selected_location
        = LOCATIONS[0]?
    ∧ (App.handle_key_event none (App.handle_key_event none App.default Key.enter)
        Key.esc).current_view = ViewState.LocationSelection
    ∧ (App.handle_key_event none (App.handle_key_event none App.default Key.enter)
        Key.esc).selected_location = none
    ∧ (App.handle_key_event none (App.handle_key_event none App.default Key.enter)
        Key.esc).selected_location_space_ids = [] :=
  C7_confirm_then_cancel none none App.default 0 App.Reachable.base rfl rfl (by decide)

/-- C10: Enter from Confirmation returns to LocationSelection and clears
the selected location but leaves `selected_location_space_ids` exactly as
it was — only the Esc/q (cancel) path from that view clears it to `[]` —
so a stale non-empty space-id set survives the Enter path into the next
LocationSelection round. -/
theorem C10_confirmation_enter_keeps_space_ids (fetch fetch2 : Option Json)
    (s : App) (hv : s.current_view = ViewState.Confirmation) :
    (App.handle_key_event fetch s Key.enter).current_view
        = ViewState.LocationSelection
    ∧ (App.handle_key_event fetch s Key.enter).selected_location = none
    ∧ (App.handle_key_event fetch s Key.enter).selected_location_space_ids
        = s.selected_location_space_ids
    ∧ (App.handle_key_event fetch2 s Key.esc).selected_location_space_ids = [] := by
  obtain ⟨r, c, locs, lsel, cv, sl, th, ids⟩ := s
  simp only at hv
  subst hv
  exact ⟨rfl, rfl, rfl, rfl⟩

/-- A catalog whose single spaceTags entry names "Adair Park" (the 0-th
location) with spaceIds [1, 2]. -/
def catalogAdair : Json := mkCatalog [mkTag "Adair Park" [1, 2]]

/-- Default state, Enter with a successful fetch of `catalogAdair` (now in
BookingForm with space ids ["1","2"]), then Enter again (Confirmation). -/
def appAtConfirmation : App :=
  App.handle_key_event none
    (App.handle_key_event (some catalogAdair) App.default Key.enter) Key.enter

theorem C10_witness :
    appAtConfirmation.current_view = ViewState.Confirmation
    ∧ appAtConfirmation.selected_location_space_ids = ["1", "2"]
    ∧ ((App.handle_key_event none appAtConfirmation Key.enter).current_view
          = ViewState.LocationSelection
      ∧ (App.handle_key_event none appAtConfirmation Key.enter).selected_location = none
      ∧ (App.handle_key_event none appAtConfirmation Key.enter).selected_location_space_ids
          = appAtConfirmation.selected_location_space_ids
      ∧ (App.handle_key_event none appAtConfirmation Key.esc).selected_location_space_ids
          = []) :=
  ⟨by decide, by decide,
    C10_confirmation_enter_keeps_space_ids none none appAtConfirmation (by decide)⟩

/-- C6, the code evaluated at the failing input: a single Enter key event
in LocationSelection already carries the fetch's resolved result in the
resulting state. `handle_key_event` calls `test_http_client`, which runs
the whole network fetch to completion via `Runtime::block_on` before the
handler returns: the render/input loop is blocked for the duration, and
the code has no background task, message channel, or cancellation token at
all. -/
theorem C6_fetch_applied_synchronously_in_key_handler :
    (App.handle_key_event (some catalogAdair) App.default
        Key.enter).selected_location_space_ids = ["1", "2"]
    ∧ (App.handle_key_event (some catalogAdair) App.default
        Key.enter).current_view = ViewState.BookingForm := by
  decide

end Syres
